import Mathlib

/-!
Verification of the email-ingestion and ticket-correlation engine of a
helpdesk application.  The definitions below are a shallow embedding of the
TypeScript source: the triple-layer matching engine, the auto-reply filter,
the ticket mutation layer (apps/api/src/lib/services/auth.service.ts), the
OAuth credential manager (AuthService.getValidAccessToken) and the
single-flight poll guard (apps/api/src/lib/imap.ts).  JavaScript strings are
modelled as Lean String values; operations are implemented over the
underlying character lists so that all predicates are executable and
decidable.  JavaScript truthiness on strings (the empty string is falsy) and
on optional values is made explicit everywhere it matters.
-/

namespace Peppermint

/-! ## String helpers (character-list implementations of the JS operations) -/

/-- Lower-case every character (models String.prototype.toLowerCase on the
ASCII subset used by the matcher). -/
def lowerChars (l : List Char) : List Char := l.map Char.toLower

/-- Drop leading whitespace characters (the JS regex class backslash-s on the
ASCII subset). -/
def dropWs (l : List Char) : List Char := l.dropWhile Char.isWhitespace

/-- Trim whitespace from both ends (models String.prototype.trim). -/
def trimChars (l : List Char) : List Char := ((dropWs l).reverse |> dropWs).reverse

/-- Does the first list occur at the head of the second one? -/
def leadsWith : List Char → List Char → Bool
  | [], _ => true
  | _ :: _, [] => false
  | a :: as, b :: bs => a == b && leadsWith as bs

/-- Does the first list occur contiguously anywhere inside the second one? -/
def containsSeg (n : List Char) : List Char → Bool
  | [] => n.isEmpty
  | c :: rest => leadsWith n (c :: rest) || containsSeg n rest

/-- Does the string end with the given suffix string? -/
def endsSeg (tail s : String) : Bool := leadsWith tail.data.reverse s.data.reverse

/-- Case-insensitive substring test: models the Prisma query
title contains normalizedSubject with insensitive mode. -/
def titleContainsCI (title ns : String) : Bool :=
  containsSeg (lowerChars ns.data) (lowerChars title.data)

/-- Split into maximal whitespace-free words; models
referencesRaw.split on a whitespace run followed by filter(Boolean),
which discards the empty pieces. -/
def wordsAux : List Char → List Char → List (List Char)
  | [], acc => if acc.isEmpty then [] else [acc.reverse]
  | c :: cs, acc =>
    if Char.isWhitespace c then
      if acc.isEmpty then wordsAux cs [] else acc.reverse :: wordsAux cs []
    else wordsAux cs (c :: acc)

/-- The References header value split into individual Message-ID words. -/
def splitRefs (s : String) : List String := (wordsAux s.data []).map String.mk

/-- Strip a single leading angle bracket and a single trailing angle
bracket, each only if present (the JS regex anchored at the two ends,
replaced globally). -/
def stripAngleChars (l : List Char) : List Char :=
  let l1 := match l with
    | '<' :: rest => rest
    | _ => l
  (match l1.reverse with
    | '>' :: rest => rest
    | r => r).reverse

/-- normalizeMessageId on one present string: the empty string is falsy in
JS and normalizes to null; otherwise trim and strip the angle brackets. -/
def normMsgId (s : String) : Option String :=
  if s = "" then none
  else some (String.mk (stripAngleChars (trimChars s.data)))

/-- normalizeMessageId of the source: absent values pass through as null. -/
def normalizeMessageId (o : Option String) : Option String := o.bind normMsgId

/-- Length of the reply or forward marker matched by the anchored JS regex
(the alternatives re:, fwd:, fw:, ref:, case-insensitive, tried in this
order), if any.  The regex is anchored at the start of the string, so with
no multiline flag it can match at most once, at position zero. -/
def replyMarkLen (l : List Char) : Option Nat :=
  let low := lowerChars l
  if leadsWith ['r', 'e', ':'] low then some 3
  else if leadsWith ['f', 'w', 'd', ':'] low then some 4
  else if leadsWith ['f', 'w', ':'] low then some 3
  else if leadsWith ['r', 'e', 'f', ':'] low then some 4
  else none

/-- One application of the anchored replace: remove the matched marker and
the whitespace run following it.  Because the regex is anchored, the global
flag does not make it fire again further into the string. -/
def stripSubjectChars (l : List Char) : List Char :=
  match replyMarkLen l with
  | some n => dropWs (l.drop n)
  | none => l

/-- Subject normalization of matchByHeuristics: the single anchored
replacement followed by trim. -/
def normalizeSubject (s : String) : String := String.mk (trimChars (stripSubjectChars s.data))

/-- JS a or-else b on strings where a is optional and the empty string is
falsy. -/
def jsOrStr (o : Option String) (d : String) : String :=
  match o with
  | some s => if s = "" then d else s
  | none => d

/-- JS a or-else b or-else c chain on two optional strings. -/
def jsOrStr2 (a b : Option String) (d : String) : String :=
  match a with
  | some s => if s = "" then jsOrStr b d else s
  | none => jsOrStr b d

/-- Insert an element at the back unless it is already present: one step of
building a JS Set from an array (insertion order, first occurrence kept). -/
def insertU (acc : List String) (x : String) : List String :=
  if acc.contains x then acc else acc ++ [x]

/-- The array spread of new Set(l): duplicates removed, first occurrences
kept in order. -/
def jsSetDedup (l : List String) : List String := l.foldl insertU []

/-- The updated externalIds array computed by processEmail for an open
matched ticket: spread of new Set(old ++ [messageId]). -/
def updatedExternalIds (old : List String) (m : String) : List String :=
  jsSetDedup (old ++ [m])

/-! ## Data model -/

/-- Ticket lifecycle statuses named in the source (TicketStatus). -/
inductive TicketStatus where
  | needs_support
  | in_progress
  | hold
  | in_review
  | done
deriving DecidableEq, Repr

/-- Ticket priorities (only LOW is used by the ingestion path). -/
inductive TicketPriority where
  | low
  | medium
  | high
deriving DecidableEq, Repr

/-- A support ticket, restricted to the fields the ingestion engine reads
or writes. -/
structure Ticket where
  id : Nat
  email : String := ""
  name : String := ""
  title : String := ""
  status : TicketStatus := .needs_support
  isComplete : Bool := false
  locked : Bool := false
  priority : TicketPriority := .low
  fromImap : Bool := true
  detail : String := ""
  threadId : Option String := none
  externalIds : List String := []
  linked : Option Nat := none
  createdAt : Nat := 0
deriving DecidableEq, Repr

/-- A comment attached to a ticket. -/
structure Comment where
  id : Nat
  text : String := ""
  userId : Option Nat := none
  ticketId : Nat
  reply : Bool := true
  replyEmail : String := ""
  isPublic : Bool := true
  messageId : Option String := none
  inReplyTo : Option String := none
deriving DecidableEq, Repr

/-- The raw copy of an inbound email persisted by createNewTicket. -/
structure ImapEmail where
  fromAddr : String
  subject : String
  body : String
  html : String
  text : String
deriving DecidableEq, Repr

/-- A registered webhook endpoint. -/
structure Webhook where
  url : String
  wtype : String
  active : Bool := true
deriving DecidableEq, Repr

/-- One delivered webhook notification (url and event type). -/
structure FiredWebhook where
  url : String
  event : String
deriving DecidableEq, Repr

/-- The persistent store visible to the ingestion engine, plus a log of the
webhook notifications it fired.  The nextId counter models the allocation
of fresh record identifiers; it also serves as the monotone creation
timestamp of new tickets. -/
structure DB where
  tickets : List Ticket := []
  comments : List Comment := []
  imapEmails : List ImapEmail := []
  webhooks : List Webhook := []
  firedWebhooks : List FiredWebhook := []
  nextId : Nat := 1000
deriving DecidableEq, Repr

/-- The header fields the engine reads through headers.get.  A value of
none models an absent header (headers.get returning undefined); a present
header whose value is not a single string (mailparser can return arrays)
is outside this model and behaves like none under the typeof guards of the
source. -/
structure EmailHeaders where
  autoSubmitted : Option String := none
  xAutoResponseSuppress : Option String := none
  xPeppermintAI : Option String := none
  precedence : Option String := none
  xAutoreply : Option String := none
  xMsExchangeAuto : Option String := none
  xGmThrid : Option String := none
  references : Option String := none
  inReplyTo : Option String := none
deriving DecidableEq, Repr

/-- The fields of a parsed inbound message (mailparser ParsedMail) that
processEmail reads.  fromAddr models from.value[0].address, senderName
models from.value[0].name. -/
structure ParsedMail where
  fromAddr : Option String := none
  senderName : Option String := none
  subject : Option String := none
  text : Option String := none
  html : Option String := none
  textAsHtml : Option String := none
  headers : EmailHeaders := {}
  messageId : Option String := none
deriving DecidableEq, Repr

/-! ## Auto-reply filter and triple-layer matching engine -/

/-- isAutoReply of the source: each disjunct mirrors one header check,
with JS truthiness (the empty string is falsy) made explicit. -/
def isAutoReply (h : EmailHeaders) : Bool :=
  (match h.autoSubmitted with
    | some s => s != "no"
    | none => false) ||
  (match h.xAutoResponseSuppress with
    | some s => s != ""
    | none => false) ||
  (h.xPeppermintAI == some "true") ||
  (match h.precedence with
    | some s => ["bulk", "list", "auto_reply"].contains s
    | none => false) ||
  (h.xAutoreply == some "yes") ||
  (match h.xMsExchangeAuto with
    | some s => s != ""
    | none => false)

/-- Layer 1: match on the Gmail thread-identifier header.  A missing header
or an empty-string value is falsy and yields no match; otherwise the first
ticket whose stored threadId equals the header is returned (Prisma
findFirst in table order). -/
def matchByGmailThreadId (db : DB) (h : EmailHeaders) : Option Ticket :=
  match h.xGmThrid with
  | none => none
  | some tid =>
    if tid = "" then none
    else db.tickets.find? (fun t => t.threadId == some tid)

/-- The candidate Message-ID set of layer 2: the References value split on
whitespace, the In-Reply-To value appended if it is a string, each piece
normalized and the nulls dropped. -/
def chainIds (h : EmailHeaders) : List String :=
  ((match h.references with
    | some r => splitRefs r
    | none => []) ++
   (match h.inReplyTo with
    | some s => [s]
    | none => [])).filterMap normMsgId

/-- Layer 2: match on the RFC 5322 References and In-Reply-To chain.
An empty candidate set yields no match.  First a comment whose stored
messageId is among the candidates wins, returning its ticket through the
relation; otherwise a ticket whose externalIds intersect the candidate
set is returned. -/
def matchByMessageIdChain (db : DB) (h : EmailHeaders) : Option Ticket :=
  if (chainIds h).isEmpty then none
  else
    match db.comments.find? (fun c =>
        match c.messageId with
        | some m => (chainIds h).contains m
        | none => false) with
    | some c =>
      match db.tickets.find? (fun t => t.id == c.ticketId) with
      | some t => some t
      | none => db.tickets.find? (fun t => t.externalIds.any (fun x => (chainIds h).contains x))
    | none => db.tickets.find? (fun t => t.externalIds.any (fun x => (chainIds h).contains x))

/-- The non-terminal statuses the heuristic layer is allowed to match. -/
def openStatuses : List TicketStatus := [.needs_support, .in_progress, .hold, .in_review]

/-- The statuses processEmail treats as closed. -/
def closedStatuses : List TicketStatus := [.done]

/-- The Prisma where-clause of the heuristic layer, as a Boolean predicate
on one ticket row. -/
def heuristicPred (sender ns : String) (t : Ticket) : Bool :=
  t.email == sender && titleContainsCI t.title ns &&
  openStatuses.contains t.status && !t.isComplete && !t.locked

/-- Prisma findFirst with orderBy createdAt desc: the row with the largest
createdAt among the given rows, the earliest row winning ties (stable
sort). -/
def pickLatest : List Ticket → Option Ticket
  | [] => none
  | t :: ts =>
    match pickLatest ts with
    | none => some t
    | some u => if t.createdAt < u.createdAt then some u else some t

/-- Layer 3: heuristic matching on sender and normalized subject.  An empty
normalized subject yields nothing; otherwise the most recently created
ticket satisfying the predicate is returned. -/
def matchByHeuristics (db : DB) (sender subject : String) : Option Ticket :=
  if normalizeSubject subject = "" then none
  else pickLatest (db.tickets.filter (heuristicPred sender (normalizeSubject subject)))

/-- Result of the matching engine together with instrumentation recording
whether the later layers were evaluated. -/
structure MatchResult where
  ticket : Option Ticket
  layer2Invoked : Bool
  layer3Invoked : Bool
deriving DecidableEq, Repr

/-- findMatchingTicket of the source: the three layers tried in order, the
first hit returned; the instrumentation fields record which of layers 2
and 3 were reached. -/
def findMatchingTicketInstr (db : DB) (h : EmailHeaders) (sender subject : String) : MatchResult :=
  match matchByGmailThreadId db h with
  | some t => ⟨some t, false, false⟩
  | none =>
    match matchByMessageIdChain db h with
    | some t => ⟨some t, true, false⟩
    | none => ⟨matchByHeuristics db sender subject, true, true⟩

/-- The plain matching result, forgetting the instrumentation. -/
def findMatchingTicket (db : DB) (h : EmailHeaders) (sender subject : String) : Option Ticket :=
  (findMatchingTicketInstr db h sender subject).ticket

/-! ## Ticket mutation layer -/

/-- The ticket record created by createNewTicket.  The status and locked
fields are the defaults of the store (the Prisma create passes neither;
the schema default is the lowest-priority open state per the spec, which
is also what the spec calls the no-match initial status); createdAt is
the allocation counter, which is monotone in creation order. -/
def mkEmailTicket (db : DB) (sender name subj textC htmlC : String)
    (thr mid : Option String) (linked : Option Nat) : Ticket :=
  { id := db.nextId
    email := sender
    name := name
    title := subj
    status := .needs_support
    isComplete := false
    locked := false
    priority := .low
    fromImap := true
    detail := if htmlC = "" then textC else htmlC
    threadId := thr
    externalIds :=
      match mid with
      | some m => if m = "" then [] else [m]
      | none => []
    linked := linked
    createdAt := db.nextId }

/-- createNewTicket of the source: persist the raw email (its html and
text columns both receive the html content, as in the source), create the
ticket, and fire the customer_ticket_created webhooks that are active. -/
def createNewTicket (db : DB) (sender name subj textC htmlC : String)
    (thr mid : Option String) (linked : Option Nat) : DB :=
  { db with
    imapEmails := db.imapEmails ++ [⟨sender, subj, textC, htmlC, htmlC⟩]
    tickets := db.tickets ++ [mkEmailTicket db sender name subj textC htmlC thr mid linked]
    nextId := db.nextId + 1
    firedWebhooks := db.firedWebhooks ++
      (db.webhooks.filter (fun w => w.wtype == "customer_ticket_created" && w.active)).map
        (fun w => ⟨w.url, "customer_ticket_created"⟩) }

/-- appendCommentToTicket of the source.  The reply text is extracted by
the email-reply-parser library, which is external to this repository; it
is passed in as the stripReply parameter.  A falsy (empty) extraction
falls back to the full text. -/
def appendCommentToTicket (stripReply : String → String) (db : DB) (t : Ticket)
    (sender name textC : String) (mid irt : Option String) : DB :=
  let replyText := stripReply textC
  let commentText := if replyText = "" then textC else replyText
  { db with
    comments := db.comments ++
      [{ id := db.nextId, text := commentText, userId := none, ticketId := t.id,
         reply := true, replyEmail := sender, isPublic := true,
         messageId := mid, inReplyTo := irt }]
    nextId := db.nextId + 1
    firedWebhooks := db.firedWebhooks ++
      (db.webhooks.filter (fun w => w.wtype == "customer_reply_received" && w.active)).map
        (fun w => ⟨w.url, "customer_reply_received"⟩) }

/-- Which run of processEmail took which branch. -/
inductive ProcOutcome where
  | invalidSender
  | autoReply
  | appended (ticketId : Nat)
  | createdNew
  | createdLinked (prev : Nat)
deriving DecidableEq, Repr

/-- Result of processEmail: the updated store, the branch taken, and
instrumentation recording whether the auto-reply check and the matching
engine were reached. -/
structure ProcResult where
  db : DB
  outcome : ProcOutcome
  autoReplyChecked : Bool
  matchAttempted : Bool
deriving DecidableEq, Repr

/-- processEmail of the source (the triple-layer revision).  Control flow:
sender validation, auto-reply filter, triple-layer matching, then either
a linked new ticket (matched ticket closed or locked), a comment append
plus externalIds union (matched ticket open), or a fresh ticket (no
match). -/
def processEmail (stripReply : String → String) (db : DB) (p : ParsedMail) : ProcResult :=
  match p.fromAddr with
  | none => ⟨db, .invalidSender, false, false⟩
  | some a =>
    if a = "" then ⟨db, .invalidSender, false, false⟩
    else
      let senderName := jsOrStr p.senderName ""
      let emailSubject := jsOrStr p.subject "No Subject"
      let nmid := normalizeMessageId p.messageId
      if isAutoReply p.headers then ⟨db, .autoReply, true, false⟩
      else
        let threadId :=
          match p.headers.xGmThrid with
          | some g => some g
          | none => nmid
        let nirt := normalizeMessageId p.headers.inReplyTo
        match findMatchingTicket db p.headers a emailSubject with
        | some t =>
          if closedStatuses.contains t.status || t.locked then
            ⟨createNewTicket db a senderName emailSubject (jsOrStr p.text "No Body")
               (jsOrStr2 p.html p.textAsHtml "") threadId nmid (some t.id),
             .createdLinked t.id, true, true⟩
          else
            let db1 := appendCommentToTicket stripReply db t a senderName
              (jsOrStr p.text "No Body") nmid nirt
            let db2 :=
              match nmid with
              | some m0 =>
                if m0 = "" then db1
                else
                  { db1 with tickets := db1.tickets.map (fun u =>
                      if u.id == t.id
                      then { u with externalIds := updatedExternalIds t.externalIds m0 }
                      else u) }
              | none => db1
            ⟨db2, .appended t.id, true, true⟩
        | none =>
          ⟨createNewTicket db a senderName emailSubject (jsOrStr p.text "No Body")
             (jsOrStr2 p.html p.textAsHtml "") threadId nmid none,
           .createdNew, true, true⟩

/-- The ticket record that processEmail creates for the message p when it
creates a ticket (both the no-match case and the closed-or-locked case),
as a function of the message. -/
def newTicketFor (db : DB) (p : ParsedMail) (linked : Option Nat) : Ticket :=
  mkEmailTicket db (p.fromAddr.getD "") (jsOrStr p.senderName "")
    (jsOrStr p.subject "No Subject") (jsOrStr p.text "No Body")
    (jsOrStr2 p.html p.textAsHtml "")
    (match p.headers.xGmThrid with
      | some g => some g
      | none => normalizeMessageId p.messageId)
    (normalizeMessageId p.messageId) linked

/-! ## Credential manager (AuthService.getValidAccessToken) -/

/-- An email polling queue (the Mailbox of the spec), restricted to the
token fields the credential manager reads and writes. -/
structure EmailQueue where
  id : Nat := 1
  clientId : String := ""
  clientSecret : String := ""
  refreshToken : Option String := none
  accessToken : Option String := none
  expiresIn : Option Nat := none
deriving DecidableEq, Repr

/-- Outcome of one OAuth refresh exchange with the provider collaborator.
The source reads only the token field of the response; the
rotatedRefreshToken field is modelled from the spec (the provider
optionally returns a rotated refresh token) so that the rotation claims
can be stated, and is deliberately ignored by getValidAccessToken below,
as it is by the source. -/
inductive RefreshExchange where
  | ok (token : Option String) (rotatedRefreshToken : Option String)
  | failed (message : String)
deriving DecidableEq, Repr

/-- The guard: accessToken and expiresIn both truthy and the current time
more than 300 seconds before the expiry. -/
def expiryOk (e : Option Nat) (now : Nat) : Bool :=
  match e with
  | some v => v != 0 && decide ((now : Int) < (v : Int) - 300)
  | none => false

/-- The catch-block wrapper applied to every refresh failure. -/
def wrapRefreshError (m : String) : String :=
  "Gmail token refresh failed: " ++ m ++ ". Please re-authenticate Gmail."

/-- Does an error message carry the re-authentication marker that the
source appends?  This is the only re-authentication signal present in the
raised errors. -/
def reauthMarked (e : String) : Bool := endsSeg ". Please re-authenticate Gmail." e

/-- The refresh path of getValidAccessToken: missing (or empty, hence
falsy) refresh token is a configuration error; a successful exchange with
a truthy token persists the token and the computed expiry now + 3600 and
nothing else; every other outcome, including a returned null token, is
wrapped by the catch block into the uniform refresh-failed error. -/
def refreshFlow (q : EmailQueue) (now : Nat) (ex : RefreshExchange) :
    Except String (String × EmailQueue) :=
  match q.refreshToken with
  | none => .error "No refresh token available. Please re-authenticate Gmail."
  | some r =>
    if r = "" then .error "No refresh token available. Please re-authenticate Gmail."
    else
      match ex with
      | .ok tokOpt _rot =>
        match tokOpt with
        | some tok =>
          if tok = "" then .error (wrapRefreshError "Unable to refresh access token - no token returned.")
          else .ok (tok, { q with accessToken := some tok, expiresIn := some (now + 3600) })
        | none => .error (wrapRefreshError "Unable to refresh access token - no token returned.")
      | .failed msg => .error (wrapRefreshError msg)

/-- getValidAccessToken of the source: return the stored token unchanged
while it is still valid with a five-minute margin, otherwise run the
refresh path. -/
def getValidAccessToken (q : EmailQueue) (now : Nat) (ex : RefreshExchange) :
    Except String (String × EmailQueue) :=
  match q.accessToken with
  | some tk =>
    if tk != "" && expiryOk q.expiresIn now then .ok (tk, q)
    else refreshFlow q now ex
  | none => refreshFlow q now ex

/-! ## Poll scheduler single-flight guard (getEmails of lib/imap.ts) -/

/-- Whether an in-flight fetchEmails run returns normally or throws. -/
inductive FetchOutcome where
  | ok
  | threw
deriving DecidableEq, Repr

/-- Scheduler state: the module-level isFetching flag and the number of
poll cycles currently in flight. -/
structure SchedState where
  isFetching : Bool
  inFlight : Nat
deriving DecidableEq, Repr

/-- The initial scheduler state. -/
def schedInit : SchedState := ⟨false, 0⟩

/-- Events of the guard: a timer firing enters getEmails, and a completion
event is the end of an in-flight fetch (normal or throwing; the catch
swallows the error and the finally block runs either way). -/
inductive SchedEvent where
  | fire
  | complete (outcome : FetchOutcome)
deriving DecidableEq, Repr

/-- One step of the guard.  A firing with the flag set returns immediately
and changes nothing; a firing with the flag clear sets the flag (before
any network call) and starts a cycle.  A completion of an in-flight cycle
clears the flag in the finally block regardless of the outcome; a
completion event with nothing in flight cannot occur and is a no-op. -/
def schedStep (s : SchedState) : SchedEvent → SchedState
  | .fire =>
    if s.isFetching then s
    else { isFetching := true, inFlight := s.inFlight + 1 }
  | .complete _ =>
    if s.inFlight = 0 then s
    else { isFetching := false, inFlight := s.inFlight - 1 }

/-- Run the guard over a sequence of events. -/
def schedRun (s : SchedState) (es : List SchedEvent) : SchedState :=
  es.foldl schedStep s

/-- The single-flight invariant: the number of in-flight cycles is exactly
one when the flag is set and zero when it is clear. -/
def schedInv (s : SchedState) : Prop :=
  s.inFlight = (if s.isFetching then 1 else 0)

instance (s : SchedState) : Decidable (schedInv s) := by
  unfold schedInv; infer_instance

/-! ## Concrete fixtures used by the witnesses and counterexamples -/

/-- A ticket whose stored thread identifier is the empty string. -/
def c1tk : Ticket := { id := 1, email := "b@y.com", title := "zzz", threadId := some "" }

/-- A store holding only the empty-thread-identifier ticket. -/
def c1db : DB := { tickets := [c1tk] }

/-- Headers carrying an empty-string provider thread identifier. -/
def c1h : EmailHeaders := { xGmThrid := some "" }

/-- A ticket with a nonempty thread identifier, for the amended claim. -/
def c1wtk : Ticket := { id := 4, email := "c@z.com", title := "T", threadId := some "g7" }

/-- A store holding the nonempty-thread-identifier ticket. -/
def c1wdb : DB := { tickets := [c1wtk] }

/-- Headers carrying that nonempty thread identifier. -/
def c1wh : EmailHeaders := { xGmThrid := some "g7" }

/-- The open ticket the heuristic layer should return. -/
def c2open : Ticket := { id := 2, email := "a@x.com", title := "Help please", createdAt := 9 }

/-- A store with one closed-and-locked matching ticket, the open matching
ticket above, and an older open matching ticket. -/
def c2db : DB :=
  { tickets :=
      [{ id := 1, email := "a@x.com", title := "Help", status := .done,
         isComplete := true, locked := true, createdAt := 5 },
       c2open,
       { id := 3, email := "a@x.com", title := "old Help thread", createdAt := 3 }] }

/-- An open ticket already holding one external Message-ID. -/
def c3t : Ticket := { id := 2, email := "a@x.com", title := "Help please", createdAt := 9, externalIds := ["m1"] }

/-- A store holding the open ticket above. -/
def c3db : DB := { tickets := [c3t] }

/-- A reply to that ticket: In-Reply-To names the known Message-ID and the
message carries a fresh Message-ID of its own. -/
def c3p : ParsedMail :=
  { fromAddr := some "a@x.com", subject := some "Re: Help", text := some "thanks",
    messageId := some "<m2>", headers := { inReplyTo := some "<m1>" } }

/-- A closed and locked ticket reachable through its thread identifier. -/
def c4t : Ticket :=
  { id := 9, email := "a@x.com", title := "Old thread", status := .done,
    isComplete := true, locked := true, threadId := some "g1", createdAt := 5 }

/-- A store holding only the closed ticket. -/
def c4db : DB := { tickets := [c4t] }

/-- A reply whose provider thread identifier points at the closed ticket. -/
def c4p : ParsedMail :=
  { fromAddr := some "a@x.com", subject := some "Re: Old thread", text := some "hello again",
    messageId := some "<m9>", headers := { xGmThrid := some "g1" } }

/-- A store with one ticket, one webhook and a comment, for the frame
claims. -/
def c5db : DB :=
  { tickets := [{ id := 1, email := "a@x.com", title := "Help" }],
    comments := [{ id := 2, ticketId := 1, messageId := some "mc" }],
    webhooks := [{ url := "http://w.example", wtype := "customer_ticket_created" }] }

/-- An auto-generated notification message. -/
def c5p : ParsedMail :=
  { fromAddr := some "a@x.com", subject := some "Out of office",
    headers := { autoSubmitted := some "auto-replied" } }

/-- A message with no parseable sender address. -/
def c10p : ParsedMail :=
  { fromAddr := none, subject := some "Hi",
    headers := { autoSubmitted := some "auto-replied", xGmThrid := some "g1" } }

/-- A queue that must take the refresh path (no stored access token). -/
def c6q : EmailQueue := { refreshToken := some "r1" }

/-- A queue used for the error-classification claim. -/
def c7q : EmailQueue := { refreshToken := some "r1" }

/-- A store with an open ticket for the empty-subject witness. -/
def c9db : DB := { tickets := [{ id := 1, email := "a@x.com", title := "x" }] }

/-! ## Helper lemmas -/

theorem insertU_mem (acc : List String) (y x : String) :
    x ∈ insertU acc y ↔ x ∈ acc ∨ x = y := by
  by_cases hin : y ∈ acc
  · simp only [insertU]
    rw [if_pos (by simpa using hin)]
    exact ⟨Or.inl, fun h => h.elim id (fun e => e ▸ hin)⟩
  · simp only [insertU]
    rw [if_neg (by simpa using hin)]
    simp

theorem foldl_insertU_mem (l : List String) :
    ∀ acc x, x ∈ l.foldl insertU acc ↔ x ∈ acc ∨ x ∈ l := by
  induction l with
  | nil => simp
  | cons y ys ih =>
    intro acc x
    simp only [List.foldl_cons, ih, insertU_mem, List.mem_cons]
    tauto

theorem mem_jsSetDedup (l : List String) (x : String) :
    x ∈ jsSetDedup l ↔ x ∈ l := by
  unfold jsSetDedup
  simp [foldl_insertU_mem]

theorem insertU_nodup (acc : List String) (y : String) (h : acc.Nodup) :
    (insertU acc y).Nodup := by
  by_cases hin : y ∈ acc
  · simp only [insertU]
    rw [if_pos (by simpa using hin)]
    exact h
  · simp only [insertU]
    rw [if_neg (by simpa using hin)]
    simp [List.nodup_append, h, hin]

theorem foldl_insertU_nodup (l : List String) :
    ∀ acc, acc.Nodup → (l.foldl insertU acc).Nodup := by
  induction l with
  | nil => intro acc h; exact h
  | cons y ys ih => intro acc h; exact ih _ (insertU_nodup acc y h)

theorem jsSetDedup_nodup (l : List String) : (jsSetDedup l).Nodup :=
  foldl_insertU_nodup l [] List.nodup_nil

theorem foldl_insertU_fresh (l : List String) :
    ∀ acc, l.Nodup → (∀ x ∈ l, x ∉ acc) → l.foldl insertU acc = acc ++ l := by
  induction l with
  | nil => simp
  | cons y ys ih =>
    intro acc hnd hfresh
    have hy : y ∉ acc := hfresh y (List.mem_cons_self y ys)
    have hstep : insertU acc y = acc ++ [y] := by
      simp only [insertU]
      rw [if_neg (by simpa using hy)]
    have hfresh2 : ∀ x ∈ ys, x ∉ acc ++ [y] := by
      intro x hx
      simp only [List.mem_append, List.mem_singleton]
      rintro (hxa | rfl)
      · exact hfresh x (List.mem_cons_of_mem _ hx) hxa
      · exact (List.nodup_cons.mp hnd).1 hx
    rw [List.foldl_cons, hstep, ih (acc ++ [y]) hnd.of_cons hfresh2]
    simp

theorem jsSetDedup_of_nodup (l : List String) (h : l.Nodup) : jsSetDedup l = l := by
  unfold jsSetDedup
  simpa using foldl_insertU_fresh l [] h (by simp)

theorem jsSetDedup_append_singleton (l : List String) (m : String) :
    jsSetDedup (l ++ [m]) = insertU (jsSetDedup l) m := by
  unfold jsSetDedup
  rw [List.foldl_append]
  rfl

theorem mem_updatedExternalIds (old : List String) (m x : String) :
    x ∈ updatedExternalIds old m ↔ x ∈ old ∨ x = m := by
  unfold updatedExternalIds
  rw [mem_jsSetDedup]
  simp

theorem updatedExternalIds_idem (old : List String) (m : String) :
    updatedExternalIds (updatedExternalIds old m) m = updatedExternalIds old m := by
  unfold updatedExternalIds
  rw [jsSetDedup_append_singleton,
    jsSetDedup_of_nodup (jsSetDedup (old ++ [m])) (jsSetDedup_nodup _)]
  have hm : m ∈ jsSetDedup (old ++ [m]) := by
    rw [mem_jsSetDedup]; simp
  simp only [insertU]
  rw [if_pos (by simpa using hm)]

theorem pickLatest_cons_ne_none (x : Ticket) (xs : List Ticket) :
    pickLatest (x :: xs) ≠ none := by
  unfold pickLatest
  split
  · simp
  · split <;> simp

theorem pickLatest_spec : ∀ (l : List Ticket) (t : Ticket), pickLatest l = some t →
    t ∈ l ∧ ∀ u ∈ l, u.createdAt ≤ t.createdAt := by
  intro l
  induction l with
  | nil => intro t h; exact absurd h (by simp [pickLatest])
  | cons x xs ih =>
    intro t h
    unfold pickLatest at h
    split at h
    · rename_i hx
      cases h
      refine ⟨List.mem_cons_self _ _, ?_⟩
      intro u hu
      rcases List.mem_cons.mp hu with rfl | hmem
      · exact le_refl _
      · cases xs with
        | nil => simp at hmem
        | cons y ys => exact absurd hx (pickLatest_cons_ne_none y ys)
    · rename_i v hx
      split at h
      · rename_i hlt
        cases h
        obtain ⟨hmem, hge⟩ := ih _ hx
        refine ⟨List.mem_cons_of_mem _ hmem, ?_⟩
        intro u2 hu2
        rcases List.mem_cons.mp hu2 with rfl | hm2
        · exact le_of_lt hlt
        · exact hge u2 hm2
      · rename_i hlt
        cases h
        obtain ⟨hmem, hge⟩ := ih _ hx
        refine ⟨List.mem_cons_self _ _, ?_⟩
        intro u2 hu2
        rcases List.mem_cons.mp hu2 with rfl | hm2
        · exact le_refl _
        · exact le_trans (hge u2 hm2) (not_lt.mp hlt)

theorem matchByGmailThreadId_mem (db : DB) (h : EmailHeaders) (t : Ticket)
    (h1 : matchByGmailThreadId db h = some t) : t ∈ db.tickets := by
  unfold matchByGmailThreadId at h1
  split at h1
  · exact absurd h1 (by simp)
  · split at h1
    · exact absurd h1 (by simp)
    · exact List.mem_of_find?_eq_some h1

theorem matchByMessageIdChain_mem (db : DB) (h : EmailHeaders) (t : Ticket)
    (h2 : matchByMessageIdChain db h = some t) : t ∈ db.tickets := by
  unfold matchByMessageIdChain at h2
  split at h2
  · exact Option.noConfusion h2
  · split at h2
    · split at h2
      · rename_i hft
        cases h2
        exact List.mem_of_find?_eq_some hft
      · exact List.mem_of_find?_eq_some h2
    · exact List.mem_of_find?_eq_some h2

theorem matchByHeuristics_mem (db : DB) (sender subject : String) (t : Ticket)
    (hm : matchByHeuristics db sender subject = some t) : t ∈ db.tickets := by
  unfold matchByHeuristics at hm
  split at hm
  · exact Option.noConfusion hm
  · exact (List.mem_filter.mp (pickLatest_spec _ _ hm).1).1

theorem findMatchingTicket_mem (db : DB) (h : EmailHeaders) (sender subject : String)
    (t : Ticket) (hm : findMatchingTicket db h sender subject = some t) : t ∈ db.tickets := by
  unfold findMatchingTicket findMatchingTicketInstr at hm
  split at hm
  · rename_i h1
    cases hm
    exact matchByGmailThreadId_mem db h t h1
  · split at hm
    · rename_i h2
      cases hm
      exact matchByMessageIdChain_mem db h t h2
    · exact matchByHeuristics_mem db sender subject t hm

theorem nodup_id_unique : ∀ (l : List Ticket), (l.map Ticket.id).Nodup →
    ∀ a ∈ l, ∀ b ∈ l, a.id = b.id → a = b := by
  intro l
  induction l with
  | nil => intro _ a ha; simp at ha
  | cons x xs ih =>
    intro hnd a ha b hb hab
    rw [List.map_cons, List.nodup_cons] at hnd
    rcases List.mem_cons.mp ha with rfl | hma
    · rcases List.mem_cons.mp hb with rfl | hmb
      · rfl
      · exact absurd (hab ▸ List.mem_map_of_mem Ticket.id hmb) hnd.1
    · rcases List.mem_cons.mp hb with rfl | hmb
      · exact absurd (hab ▸ List.mem_map_of_mem Ticket.id hma) hnd.1
      · exact ih hnd.2 a hma b hmb hab

theorem leadsWith_append (l r : List Char) : leadsWith l (l ++ r) = true := by
  induction l with
  | nil => rfl
  | cons c cs ih => simp [leadsWith, ih]

theorem endsSeg_append (s t : String) : endsSeg t (s ++ t) = true := by
  unfold endsSeg
  rw [String.data_append, List.reverse_append]
  exact leadsWith_append _ _

theorem schedInv_init : schedInv schedInit := by decide

theorem schedInv_step (s : SchedState) (e : SchedEvent) (h : schedInv s) :
    schedInv (schedStep s e) := by
  unfold schedInv at h ⊢
  cases e with
  | fire =>
    unfold schedStep
    by_cases hf : s.isFetching
    · rw [if_pos hf]; exact h
    · rw [if_neg hf]
      simp only []
      rw [h]
      simp [hf]
  | complete o =>
    unfold schedStep
    by_cases hz : s.inFlight = 0
    · rw [if_pos hz]; exact h
    · rw [if_neg hz]
      simp only []
      rw [h] at hz ⊢
      by_cases hf : s.isFetching
      · simp [hf]
      · simp [hf] at hz

theorem schedInv_run (es : List SchedEvent) :
    ∀ s : SchedState, schedInv s → schedInv (schedRun s es) := by
  induction es with
  | nil => intro s h; exact h
  | cons e es ih =>
    intro s h
    exact ih (schedStep s e) (schedInv_step s e h)

/-! ## Claim theorems -/

/-- C5: every message classified as an auto-reply by the header conditions
of isAutoReply leaves the persistent state (tickets, comments, raw emails,
webhook deliveries) completely unchanged: processEmail creates no Ticket
and no Comment and fires no webhook. -/
theorem c5_auto_reply_is_dropped (stripReply : String → String) (db : DB) (p : ParsedMail)
    (h : isAutoReply p.headers = true) :
    (processEmail stripReply db p).db = db := by
  unfold processEmail
  split
  · rfl
  · split
    · rfl
    · simp [h]

/-- C5 witness: a concrete auto-submitted message against a concrete store
is dropped without any state change. -/
theorem c5_witness :
    isAutoReply c5p.headers = true ∧ (processEmail (fun s => s) c5db c5p).db = c5db :=
  ⟨by decide, c5_auto_reply_is_dropped (fun s => s) c5db c5p (by decide)⟩

/-- C10: a message with no parseable sender address makes processEmail
return with the store untouched; the auto-reply check is never reached and
no matching layer is attempted, so this validation precedes both. -/
theorem c10_invalid_sender_short_circuit (stripReply : String → String) (db : DB)
    (p : ParsedMail) (h : p.fromAddr = none) :
    (processEmail stripReply db p).db = db ∧
    (processEmail stripReply db p).outcome = .invalidSender ∧
    (processEmail stripReply db p).autoReplyChecked = false ∧
    (processEmail stripReply db p).matchAttempted = false := by
  unfold processEmail
  rw [h]
  exact ⟨rfl, rfl, rfl, rfl⟩

/-- C10 witness: a concrete sender-less message, even one carrying
auto-reply and thread-identifier headers, changes nothing and reaches
neither the auto-reply check nor the matching engine. -/
theorem c10_witness :
    (processEmail (fun s => s) c5db c10p).db = c5db ∧
    (processEmail (fun s => s) c5db c10p).outcome = .invalidSender ∧
    (processEmail (fun s => s) c5db c10p).autoReplyChecked = false ∧
    (processEmail (fun s => s) c5db c10p).matchAttempted = false :=
  c10_invalid_sender_short_circuit (fun s => s) c5db c10p rfl

/-- C9 counterexample: repeated reply markers are not all stripped; the
anchored replacement fires once, so the subject with two markers keeps its
second marker instead of normalizing to the bare title. -/
theorem c9_counterexample :
    normalizeSubject "Re: Fwd: Project Update" = "Fwd: Project Update" ∧
    normalizeSubject "Re: Fwd: Project Update" ≠ "Project Update" := by decide

/-- C9 (amended): subject normalization strips exactly one leading
reply or forward marker (re:, fwd:, fw:, ref:, case-insensitive) together
with the whitespace after it and trims the result; repeated markers are
not further stripped; and whenever the normalized subject is empty the
heuristic layer returns no match for every store and sender. -/
theorem c9_single_marker_strip_and_empty_subject :
    (∀ (db : DB) (sender subject : String), normalizeSubject subject = "" →
      matchByHeuristics db sender subject = none) ∧
    normalizeSubject "Re: hello" = "hello" ∧
    normalizeSubject "FWD: hello" = "hello" ∧
    normalizeSubject "fw: hello" = "hello" ∧
    normalizeSubject "Ref: hello" = "hello" ∧
    normalizeSubject "Re: Fwd: hello" = "Fwd: hello" ∧
    normalizeSubject "plain subject" = "plain subject" := by
  refine ⟨?_, by decide, by decide, by decide, by decide, by decide, by decide⟩
  intro db sender subject h
  unfold matchByHeuristics
  rw [if_pos h]

/-- C9 witness: a concrete subject that normalizes to empty yields no
heuristic match against a store containing an open ticket. -/
theorem c9_witness :
    normalizeSubject "Re:  " = "" ∧ matchByHeuristics c9db "a@x.com" "Re:  " = none :=
  ⟨by decide, c9_single_marker_strip_and_empty_subject.1 c9db "a@x.com" "Re:  " (by decide)⟩

/-- C2: the heuristic layer only ever returns a ticket whose status is in
the open set (in particular not the terminal done status), whose
completion flag is clear and whose locked flag is clear, and the returned
ticket is at least as recently created as every ticket satisfying the
heuristic predicate. -/
theorem c2_heuristics_never_match_closed (db : DB) (sender subject : String) (t : Ticket)
    (h : matchByHeuristics db sender subject = some t) :
    openStatuses.contains t.status = true ∧ t.status ≠ .done ∧
    t.isComplete = false ∧ t.locked = false ∧
    ∀ u ∈ db.tickets, heuristicPred sender (normalizeSubject subject) u = true →
      u.createdAt ≤ t.createdAt := by
  unfold matchByHeuristics at h
  split at h
  · exact Option.noConfusion h
  · obtain ⟨hmem, hge⟩ := pickLatest_spec _ _ h
    have hp : heuristicPred sender (normalizeSubject subject) t = true :=
      (List.mem_filter.mp hmem).2
    unfold heuristicPred at hp
    simp only [Bool.and_eq_true] at hp
    obtain ⟨⟨⟨⟨he, hc⟩, hs⟩, hic⟩, hl⟩ := hp
    refine ⟨hs, ?_, ?_, ?_, ?_⟩
    · intro hd
      rw [hd] at hs
      exact absurd hs (by decide)
    · simpa using hic
    · simpa using hl
    · intro u hu hup
      exact hge u (List.mem_filter.mpr ⟨hu, hup⟩)

/-- C2 witness: against a store holding a closed-and-locked exact match
and two open matches, the heuristic layer returns the newest open match,
which is open, not complete, not locked, and newest among qualifiers. -/
theorem c2_witness :
    matchByHeuristics c2db "a@x.com" "Re: Help" = some c2open ∧
    (openStatuses.contains c2open.status = true ∧ c2open.status ≠ .done ∧
     c2open.isComplete = false ∧ c2open.locked = false ∧
     ∀ u ∈ c2db.tickets, heuristicPred "a@x.com" (normalizeSubject "Re: Help") u = true →
       u.createdAt ≤ c2open.createdAt) :=
  ⟨by decide, c2_heuristics_never_match_closed c2db "a@x.com" "Re: Help" c2open (by decide)⟩

/-- C8: the single-flight guard of getEmails.  A firing that arrives with
the flag set returns immediately and changes nothing; from the initial
state every event sequence maintains the invariant that the flag is set
exactly while one cycle is in flight; hence at most one poll cycle is ever
in flight; and the completion of an in-flight cycle clears the flag
whatever the outcome, normal return or thrown error, so the flag never
remains stuck. -/
theorem c8_single_flight_guard :
    (∀ s : SchedState, s.isFetching = true → schedStep s .fire = s) ∧
    (∀ es : List SchedEvent, schedInv (schedRun schedInit es)) ∧
    (∀ es : List SchedEvent, (schedRun schedInit es).inFlight ≤ 1) ∧
    (∀ (s : SchedState) (o : FetchOutcome), s.inFlight ≠ 0 →
      (schedStep s (.complete o)).isFetching = false) := by
  have hinv : ∀ es : List SchedEvent, schedInv (schedRun schedInit es) :=
    fun es => schedInv_run es schedInit schedInv_init
  refine ⟨?_, hinv, ?_, ?_⟩
  · intro s hs
    unfold schedStep
    rw [if_pos hs]
  · intro es
    have h := hinv es
    unfold schedInv at h
    rw [h]
    by_cases hf : (schedRun schedInit es).isFetching <;> simp [hf]
  · intro s o h
    unfold schedStep
    rw [if_neg h]

/-- C8 witness: a firing against a busy state is the identity, the
invariant holds after a concrete trace with a throwing cycle, and a
throwing completion clears the flag. -/
theorem c8_witness :
    schedStep ⟨true, 1⟩ .fire = ⟨true, 1⟩ ∧
    schedInv (schedRun schedInit [.fire, .complete .threw, .fire]) ∧
    (schedStep ⟨true, 1⟩ (.complete .threw)).isFetching = false :=
  ⟨c8_single_flight_guard.1 ⟨true, 1⟩ rfl,
   c8_single_flight_guard.2.1 [.fire, .complete .threw, .fire],
   c8_single_flight_guard.2.2.2 ⟨true, 1⟩ .threw (by decide)⟩

/-- C1 counterexample: a message whose provider thread-identifier header
equals the stored thread identifier of an existing ticket, both being the
empty string; the empty header value is falsy, so layer 1 yields nothing,
layers 2 and 3 are invoked, and the ticket is not returned. -/
theorem c1_counterexample :
    c1tk ∈ c1db.tickets ∧ c1tk.threadId = some "" ∧ c1h.xGmThrid = some "" ∧
    (findMatchingTicketInstr c1db c1h "a@x.com" "Hello").layer2Invoked = true ∧
    (findMatchingTicketInstr c1db c1h "a@x.com" "Hello").layer3Invoked = true ∧
    findMatchingTicket c1db c1h "a@x.com" "Hello" ≠ some c1tk := by decide

/-- C1 (amended): for every message whose thread-identifier header is a
nonempty string equal to the stored thread identifier of some existing
ticket, layers 2 and 3 are never invoked, the result is exactly the first
stored ticket with that thread identifier, and in particular a ticket with
that thread identifier is the result. -/
theorem c1_thread_id_short_circuits (db : DB) (h : EmailHeaders)
    (sender subject tid : String) (hne : tid ≠ "") (hh : h.xGmThrid = some tid)
    (hex : ∃ t ∈ db.tickets, t.threadId = some tid) :
    (findMatchingTicketInstr db h sender subject).layer2Invoked = false ∧
    (findMatchingTicketInstr db h sender subject).layer3Invoked = false ∧
    (findMatchingTicketInstr db h sender subject).ticket =
      db.tickets.find? (fun t => t.threadId == some tid) ∧
    ∃ u, (findMatchingTicketInstr db h sender subject).ticket = some u ∧
      u.threadId = some tid := by
  have hfind : matchByGmailThreadId db h = db.tickets.find? (fun t => t.threadId == some tid) := by
    unfold matchByGmailThreadId
    rw [hh]
    show (if tid = "" then none else db.tickets.find? (fun t => t.threadId == some tid)) = _
    rw [if_neg hne]
  have hsome : (db.tickets.find? (fun t => t.threadId == some tid)).isSome := by
    apply List.find?_isSome.mpr
    obtain ⟨t, htm, htt⟩ := hex
    exact ⟨t, htm, by simp [htt]⟩
  obtain ⟨u, hu⟩ := Option.isSome_iff_exists.mp hsome
  have hut : u.threadId = some tid := by
    have := List.find?_some hu
    simpa using this
  have hinstr : findMatchingTicketInstr db h sender subject = ⟨some u, false, false⟩ := by
    unfold findMatchingTicketInstr
    rw [hfind, hu]
  rw [hinstr]
  exact ⟨rfl, rfl, by rw [hu], u, rfl, hut⟩

/-- C1 witness: a concrete message carrying the nonempty thread identifier
of a stored ticket is resolved by layer 1 alone. -/
theorem c1_witness :
    (findMatchingTicketInstr c1wdb c1wh "a@x.com" "Hi").layer2Invoked = false ∧
    (findMatchingTicketInstr c1wdb c1wh "a@x.com" "Hi").layer3Invoked = false ∧
    ∃ u, (findMatchingTicketInstr c1wdb c1wh "a@x.com" "Hi").ticket = some u ∧
      u.threadId = some "g7" := by
  have h := c1_thread_id_short_circuits c1wdb c1wh "a@x.com" "Hi" "g7"
    (by decide) rfl ⟨c1wtk, by decide, rfl⟩
  exact ⟨h.1, h.2.1, h.2.2.2⟩

/-- C6 counterexample: a successful refresh exchange in which the provider
issues the rotated refresh token r2, different from the stored r1; the
persisted queue still carries r1, so the rotated token is not persisted as
the claim states. -/
theorem c6_counterexample :
    getValidAccessToken c6q 1000 (.ok (some "t2") (some "r2")) =
      .ok ("t2", { c6q with accessToken := some "t2", expiresIn := some 4600 }) ∧
    ({ c6q with accessToken := some "t2", expiresIn := some 4600 } : EmailQueue).refreshToken
      = some "r1" ∧
    some "r1" ≠ some "r2" :=
  ⟨rfl, rfl, by decide⟩

/-- C6 (amended): on a successful refresh exchange getValidAccessToken
persists the new access token and the computed expiry now + 3600, and the
stored refresh token is always left untouched, whether or not the provider
issued a different one. -/
theorem c6_refresh_persists_token_only (q : EmailQueue) (now : Nat) (tok : String)
    (rot : Option String)
    (hstale : ∀ tk, q.accessToken = some tk → (tk != "" && expiryOk q.expiresIn now) = false)
    (href : ∃ r, q.refreshToken = some r ∧ r ≠ "") (htok : tok ≠ "") :
    getValidAccessToken q now (.ok (some tok) rot) =
      .ok (tok, { q with accessToken := some tok, expiresIn := some (now + 3600) }) ∧
    ({ q with accessToken := some tok, expiresIn := some (now + 3600) } : EmailQueue).refreshToken
      = q.refreshToken := by
  obtain ⟨r, hr, hrne⟩ := href
  have hflow : refreshFlow q now (.ok (some tok) rot) =
      .ok (tok, { q with accessToken := some tok, expiresIn := some (now + 3600) }) := by
    unfold refreshFlow
    rw [hr]
    show (if r = "" then _ else _) = _
    rw [if_neg hrne]
    show (if tok = "" then _ else _) = _
    rw [if_neg htok]
  refine ⟨?_, rfl⟩
  unfold getValidAccessToken
  cases hq : q.accessToken with
  | none => exact hflow
  | some tk =>
    show (if (tk != "" && expiryOk q.expiresIn now) = true then Except.ok (tk, q)
      else refreshFlow q now (.ok (some tok) rot)) = _
    rw [hstale tk hq, if_neg (by decide : ¬(false = true))]
    exact hflow

/-- C6 witness: a queue with no stored access token refreshes, persists
the new token with expiry 500 + 3600, and keeps its refresh token. -/
theorem c6_witness :
    getValidAccessToken c6q 500 (.ok (some "tk2") none) =
      .ok ("tk2", { c6q with accessToken := some "tk2", expiresIn := some 4100 }) ∧
    ({ c6q with accessToken := some "tk2", expiresIn := some 4100 } : EmailQueue).refreshToken
      = c6q.refreshToken :=
  c6_refresh_persists_token_only c6q 500 "tk2" none
    (fun tk h => Option.noConfusion h) ⟨"r1", rfl, by decide⟩ (by decide)

/-- C7 counterexample: the error raised for an invalid-grant refresh
failure and the error raised for a transient network failure both carry
the re-authentication marker that the source appends to every failure, so
the invalid-grant error is not distinguishable as the re-authentication
kind; only the embedded provider message differs. -/
theorem c7_counterexample :
    getValidAccessToken c7q 0 (.failed "invalid_grant") =
      .error "Gmail token refresh failed: invalid_grant. Please re-authenticate Gmail." ∧
    getValidAccessToken c7q 0 (.failed "connect ETIMEDOUT") =
      .error "Gmail token refresh failed: connect ETIMEDOUT. Please re-authenticate Gmail." ∧
    reauthMarked "Gmail token refresh failed: invalid_grant. Please re-authenticate Gmail."
      = true ∧
    reauthMarked "Gmail token refresh failed: connect ETIMEDOUT. Please re-authenticate Gmail."
      = true :=
  ⟨rfl, rfl, by decide, by decide⟩

/-- C7 (amended): every refresh-exchange failure, whatever the provider
message, raises the single uniform wrapped error, and that error always
carries the re-authentication marker; invalid-grant failures are therefore
not surfaced as an error kind distinct from transient failures. -/
theorem c7_uniform_refresh_error (q : EmailQueue) (now : Nat) (msg : String)
    (hstale : ∀ tk, q.accessToken = some tk → (tk != "" && expiryOk q.expiresIn now) = false)
    (href : ∃ r, q.refreshToken = some r ∧ r ≠ "") :
    getValidAccessToken q now (.failed msg) = .error (wrapRefreshError msg) ∧
    reauthMarked (wrapRefreshError msg) = true := by
  obtain ⟨r, hr, hrne⟩ := href
  have hflow : refreshFlow q now (.failed msg) = .error (wrapRefreshError msg) := by
    unfold refreshFlow
    rw [hr]
    show (if r = "" then _ else _) = _
    rw [if_neg hrne]
  constructor
  · unfold getValidAccessToken
    cases hq : q.accessToken with
    | none => exact hflow
    | some tk =>
      show (if (tk != "" && expiryOk q.expiresIn now) = true then Except.ok (tk, q)
        else refreshFlow q now (.failed msg)) = _
      rw [hstale tk hq, if_neg (by decide : ¬(false = true))]
      exact hflow
  · unfold reauthMarked wrapRefreshError
    exact endsSeg_append ("Gmail token refresh failed: " ++ msg) ". Please re-authenticate Gmail."

/-- C7 witness: a transient failure message produces the wrapped error and
it carries the re-authentication marker. -/
theorem c7_witness :
    getValidAccessToken c7q 0 (.failed "ECONNRESET") =
      .error (wrapRefreshError "ECONNRESET") ∧
    reauthMarked (wrapRefreshError "ECONNRESET") = true :=
  c7_uniform_refresh_error c7q 0 "ECONNRESET"
    (fun tk h => Option.noConfusion h) ⟨"r1", rfl, by decide⟩

/-- C3: when an inbound message with a nonempty normalized Message-ID is
appended to a matched open ticket, the updated externalIds of that ticket
are exactly the old set united with the Message-ID (an element is in the
new array iff it was in the old array or is the new Message-ID); the
update is idempotent, so re-processing the same Message-ID against the
same ticket adds nothing; and across the whole operation every stored
ticket keeps all its external identifiers — externalIds only grows. -/
theorem c3_external_ids_grow_as_set_union (stripReply : String → String) (db : DB)
    (p : ParsedMail) (a : String) (t : Ticket) (m0 : String)
    (hids : (db.tickets.map Ticket.id).Nodup)
    (ha : p.fromAddr = some a) (hane : a ≠ "")
    (har : isAutoReply p.headers = false)
    (hm : findMatchingTicket db p.headers a (jsOrStr p.subject "No Subject") = some t)
    (hst : t.status ≠ .done) (hlk : t.locked = false)
    (hmid : normalizeMessageId p.messageId = some m0) (hm0 : m0 ≠ "") :
    (∃ t2 ∈ (processEmail stripReply db p).db.tickets,
        t2.id = t.id ∧ t2.externalIds = updatedExternalIds t.externalIds m0 ∧
        ∀ x, x ∈ t2.externalIds ↔ (x ∈ t.externalIds ∨ x = m0)) ∧
    updatedExternalIds (updatedExternalIds t.externalIds m0) m0 =
      updatedExternalIds t.externalIds m0 ∧
    ∀ u ∈ db.tickets, ∃ u2 ∈ (processEmail stripReply db p).db.tickets,
      u2.id = u.id ∧ ∀ x ∈ u.externalIds, x ∈ u2.externalIds := by
  have hmem : t ∈ db.tickets :=
    findMatchingTicket_mem db p.headers a (jsOrStr p.subject "No Subject") t hm
  have hcstat : closedStatuses.contains t.status = false := by
    cases hs : t.status
    case done => exact absurd hs hst
    all_goals rfl
  have hcond : (closedStatuses.contains t.status || t.locked) = false := by
    rw [hcstat, hlk]
    rfl
  have hTk : (processEmail stripReply db p).db.tickets =
      db.tickets.map (fun u =>
        if u.id == t.id
        then { u with externalIds := updatedExternalIds t.externalIds m0 } else u) := by
    simp only [processEmail, ha, har, hm, hcond, hmid]
    rw [if_neg hane]
    simp only [Bool.false_eq_true, if_false, if_true]
    rw [if_neg hm0]
    rfl
  have himg : ∀ u ∈ db.tickets,
      (if u.id == t.id
       then { u with externalIds := updatedExternalIds t.externalIds m0 } else u) ∈
        (processEmail stripReply db p).db.tickets := by
    intro u hu
    rw [hTk]
    exact List.mem_map_of_mem _ hu
  refine ⟨⟨{ t with externalIds := updatedExternalIds t.externalIds m0 }, ?_, rfl, rfl, ?_⟩,
    updatedExternalIds_idem t.externalIds m0, ?_⟩
  · simpa using himg t hmem
  · intro x
    exact mem_updatedExternalIds t.externalIds m0 x
  · intro u hu
    by_cases hid : u.id = t.id
    · have hut : u = t := nodup_id_unique db.tickets hids u hu t hmem hid
      subst hut
      refine ⟨{ u with externalIds := updatedExternalIds u.externalIds m0 }, ?_, rfl, ?_⟩
      · simpa using himg u hu
      · intro x hx
        exact (mem_updatedExternalIds u.externalIds m0 x).mpr (Or.inl hx)
    · have hbeq : (u.id == t.id) = false := by simp [hid]
      refine ⟨u, ?_, rfl, fun x hx => hx⟩
      have h1 := himg u hu
      rw [hbeq] at h1
      simpa using h1

/-- C3 witness: a concrete reply correlated by In-Reply-To to a concrete
open ticket; the updated externalIds are the old set plus the new
Message-ID, and re-adding it is a no-op. -/
theorem c3_witness :
    updatedExternalIds (updatedExternalIds c3t.externalIds "m2") "m2" =
      updatedExternalIds c3t.externalIds "m2" ∧
    ∃ t2 ∈ (processEmail (fun s => s) c3db c3p).db.tickets,
      t2.id = c3t.id ∧ t2.externalIds = updatedExternalIds c3t.externalIds "m2" ∧
      ∀ x, x ∈ t2.externalIds ↔ (x ∈ c3t.externalIds ∨ x = "m2") := by
  have h := c3_external_ids_grow_as_set_union (fun s => s) c3db c3p "a@x.com" c3t "m2"
    (by decide) rfl (by decide) (by decide) (by decide) (by decide) (by decide)
    (by decide) (by decide)
  exact ⟨h.2.1, h.1⟩

/-- C4: when the matched ticket is in the terminal done status or locked,
processEmail leaves every stored ticket (in particular the matched one)
unchanged and appends exactly one new ticket, built from the message with
the same fields as the no-match case except for a forward link to the
matched ticket; no comment is appended to the matched ticket. -/
theorem c4_closed_match_forks_linked_ticket (stripReply : String → String) (db : DB)
    (p : ParsedMail) (a : String) (t : Ticket)
    (ha : p.fromAddr = some a) (hane : a ≠ "")
    (har : isAutoReply p.headers = false)
    (hm : findMatchingTicket db p.headers a (jsOrStr p.subject "No Subject") = some t)
    (hterm : t.status = .done ∨ t.locked = true) :
    (processEmail stripReply db p).db.tickets = db.tickets ++ [newTicketFor db p (some t.id)] ∧
    newTicketFor db p (some t.id) = { newTicketFor db p none with linked := some t.id } ∧
    (processEmail stripReply db p).db.comments = db.comments ∧
    (processEmail stripReply db p).outcome = .createdLinked t.id ∧
    ∀ u ∈ db.tickets, u ∈ (processEmail stripReply db p).db.tickets := by
  have hcond : (closedStatuses.contains t.status || t.locked) = true := by
    rcases hterm with hd | hl
    · rw [hd]
      rfl
    · rw [hl]
      simp
  have hred : processEmail stripReply db p =
      ⟨createNewTicket db a (jsOrStr p.senderName "") (jsOrStr p.subject "No Subject")
          (jsOrStr p.text "No Body") (jsOrStr2 p.html p.textAsHtml "")
          (match p.headers.xGmThrid with
            | some g => some g
            | none => normalizeMessageId p.messageId)
          (normalizeMessageId p.messageId) (some t.id),
       .createdLinked t.id, true, true⟩ := by
    simp only [processEmail, ha, har, hm, hcond]
    rw [if_neg hane]
    simp only [Bool.false_eq_true, if_false, if_true]
  have htks : (processEmail stripReply db p).db.tickets =
      db.tickets ++ [newTicketFor db p (some t.id)] := by
    rw [hred]
    simp only [createNewTicket, newTicketFor, ha, Option.getD_some]
  refine ⟨htks, ?_, ?_, ?_, ?_⟩
  · rfl
  · rw [hred]
    rfl
  · rw [hred]
  · intro u hu
    rw [htks]
    exact List.mem_append_left _ hu

/-- C4 witness: a concrete reply whose thread identifier points at a
closed and locked ticket forks a new linked ticket, identical to the
no-match ticket except for the forward link, and appends no comment. -/
theorem c4_witness :
    (processEmail (fun s => s) c4db c4p).db.tickets =
      c4db.tickets ++ [newTicketFor c4db c4p (some c4t.id)] ∧
    newTicketFor c4db c4p (some c4t.id) =
      { newTicketFor c4db c4p none with linked := some c4t.id } ∧
    (processEmail (fun s => s) c4db c4p).db.comments = c4db.comments := by
  have h := c4_closed_match_forks_linked_ticket (fun s => s) c4db c4p "a@x.com" c4t
    rfl (by decide) (by decide) (by decide) (Or.inl rfl)
  exact ⟨h.1, h.2.1, h.2.2.1⟩

end Peppermint
